import Mathlib

/-
Shallow embedding of the behavioral classifier hooks of the fluxa-UI
repository:

  * useBehaviorProfile  (personality classifier)
  * useIntentDetection  (intent classifier)
  * useInteractionMemory (recognition / mood classifier)

Numbers are modelled as exact rationals (JS numbers are treated as reals by
the design spec), monotone counters as naturals.  The JS primitive
`Math.sqrt`, which is irrational in general, is threaded through the
embedding as an explicit function parameter `jsSqrt`; theorems that do not
depend on the numeric value of a square root quantify over it, and concrete
traces instantiate it with `intSqrt`, which agrees with the real square root
on every input actually occurring in those traces.  `Date.now()` is passed
to each event as an explicit timestamp.
-/

/-- JS `arr.slice(-n)`: the suffix of the last `min n l.length` elements. -/
def sliceLast (n : ℕ) (l : List α) : List α :=
  l.drop (l.length - n)

/-- Concrete square root used to instantiate the `jsSqrt` parameter in
closed traces; it agrees with the real square root whenever the argument is
the square of a natural number, which covers every square-root call in the
concrete traces below (all other calls feed results that the relevant
property never reads). -/
def intSqrt (q : ℚ) : ℚ :=
  (Nat.sqrt q.num.toNat : ℚ)

/-! ## Behavior Profile classifier (useBehaviorProfile.ts) -/

inductive Personality where
  | calm | assertive | inviting | curious | hesitant
  deriving DecidableEq

/-- The persisted accumulator of `useBehaviorProfile` (interface
`BehaviorMetrics`).  Counters are monotone nonnegative integers; the JS
`Math.max(0, hoverWithoutClick - 1)` floor coincides with truncated natural
subtraction. -/
structure BehaviorMetrics where
  hoverCount : ℕ
  totalHoverDuration : ℚ
  averageHoverDuration : ℚ
  hoverVelocity : List ℚ
  clickCount : ℕ
  clickSpeed : List ℚ
  doubleClickCount : ℕ
  hoverWithoutClick : ℕ
  approachRetreatCount : ℕ
  directApproaches : ℕ
  lastInteractionTime : ℚ
  deriving DecidableEq

/-- The in-memory (never persisted) ref cells of the hook:
`hoverStartTime`, `lastMousePosition`, `isHovering`,
`approachStartDistance`. -/
structure BehaviorSession where
  hoverStartTime : ℚ
  lastMousePosition : Option (ℚ × ℚ)
  isHovering : Bool
  approachStartDistance : Option ℚ
  deriving DecidableEq

structure BehaviorState where
  metrics : BehaviorMetrics
  session : BehaviorSession
  deriving DecidableEq

/-- Source `getDefaultMetrics()`. -/
def getDefaultMetrics : BehaviorMetrics :=
  { hoverCount := 0
    totalHoverDuration := 0
    averageHoverDuration := 0
    hoverVelocity := []
    clickCount := 0
    clickSpeed := []
    doubleClickCount := 0
    hoverWithoutClick := 0
    approachRetreatCount := 0
    directApproaches := 0
    lastInteractionTime := 0 }

/-- Ref cells at mount time. -/
def initialBehaviorSession : BehaviorSession :=
  { hoverStartTime := 0
    lastMousePosition := none
    isHovering := false
    approachStartDistance := none }

def initialBehaviorState : BehaviorState :=
  { metrics := getDefaultMetrics, session := initialBehaviorSession }

/-- A DOM rectangle as consumed by `onMouseMove`. -/
structure Rect where
  left : ℚ
  top : ℚ
  width : ℚ
  height : ℚ
  deriving DecidableEq

/-- Input events of the behavior hook; `now` is the value `Date.now()`
returns while the handler runs. -/
inductive BEvent where
  | hoverStart (now : ℚ) (pos : ℚ × ℚ)
  | hoverEnd (now : ℚ)
  | mouseMove (pos : ℚ × ℚ) (rect : Rect)
  | click (now : ℚ)
  | approachRetreat
  deriving DecidableEq

/-- Source `onHoverStart`. -/
def onHoverStart (now : ℚ) (pos : ℚ × ℚ) (s : BehaviorState) : BehaviorState :=
  { metrics := { s.metrics with
      hoverCount := s.metrics.hoverCount + 1
      lastInteractionTime := now }
    session := { s.session with
      hoverStartTime := now
      isHovering := true
      lastMousePosition := some pos } }

/-- Source `onHoverEnd`.  The division `newTotalDuration / newHoverCount`
is rational division (on every reachable state the divisor is positive,
since `isHovering` is only set by `onHoverStart`, which increments
`hoverCount`). -/
def onHoverEnd (now : ℚ) (s : BehaviorState) : BehaviorState :=
  if s.session.isHovering = false then s
  else
    let duration := now - s.session.hoverStartTime
    let newTotalDuration := s.metrics.totalHoverDuration + duration
    let newHoverCount := s.metrics.hoverCount
    { metrics := { s.metrics with
        totalHoverDuration := newTotalDuration
        averageHoverDuration := newTotalDuration / (newHoverCount : ℚ)
        hoverWithoutClick := s.metrics.hoverWithoutClick + 1 }
      session := { s.session with isHovering := false } }

/-- Source `onMouseMove`.  `jsSqrt` stands for `Math.sqrt`; the source
computes `velocity = sqrt(dx*dx + dy*dy)` and the distance to the button
center with `Math.sqrt`/`Math.pow(_, 2)`. -/
def onMouseMove (jsSqrt : ℚ → ℚ) (pos : ℚ × ℚ) (rect : Rect)
    (s : BehaviorState) : BehaviorState :=
  match s.session.lastMousePosition with
  | none =>
      { s with session := { s.session with lastMousePosition := some pos } }
  | some last =>
      let dx := pos.1 - last.1
      let dy := pos.2 - last.2
      let velocity := jsSqrt (dx * dx + dy * dy)
      let buttonCenterX := rect.left + rect.width / 2
      let buttonCenterY := rect.top + rect.height / 2
      let currentDistance := jsSqrt
        ((pos.1 - buttonCenterX) * (pos.1 - buttonCenterX) +
         (pos.2 - buttonCenterY) * (pos.2 - buttonCenterY))
      let approachStart :=
        match s.session.approachStartDistance with
        | none => currentDistance
        | some d => d
      let m1 :=
        if velocity > 15 ∧ currentDistance < approachStart * 0.5 then
          { s.metrics with directApproaches := s.metrics.directApproaches + 1 }
        else s.metrics
      let m2 :=
        if s.session.isHovering then
          { m1 with hoverVelocity := sliceLast 20 m1.hoverVelocity ++ [velocity] }
        else m1
      { metrics := m2
        session := { s.session with
          lastMousePosition := some pos
          approachStartDistance := some approachStart } }

/-- Source `onClick`.  The double-click test reads the previous
`lastInteractionTime`, which `onHoverStart` also updates. -/
def onClick (now : ℚ) (s : BehaviorState) : BehaviorState :=
  let clickTime := now - s.session.hoverStartTime
  let isDoubleClick :=
    s.metrics.clickSpeed.length > 0 ∧ now - s.metrics.lastInteractionTime < 400
  { s with metrics := { s.metrics with
      clickCount := s.metrics.clickCount + 1
      clickSpeed := sliceLast 10 s.metrics.clickSpeed ++ [clickTime]
      doubleClickCount :=
        if isDoubleClick then s.metrics.doubleClickCount + 1
        else s.metrics.doubleClickCount
      hoverWithoutClick := s.metrics.hoverWithoutClick - 1
      lastInteractionTime := now } }

/-- Source `onApproachRetreat`. -/
def onApproachRetreat (s : BehaviorState) : BehaviorState :=
  { metrics := { s.metrics with
      approachRetreatCount := s.metrics.approachRetreatCount + 1 }
    session := { s.session with approachStartDistance := none } }

def bStep (jsSqrt : ℚ → ℚ) (e : BEvent) (s : BehaviorState) : BehaviorState :=
  match e with
  | .hoverStart now pos => onHoverStart now pos s
  | .hoverEnd now => onHoverEnd now s
  | .mouseMove pos rect => onMouseMove jsSqrt pos rect s
  | .click now => onClick now s
  | .approachRetreat => onApproachRetreat s

def bRun (jsSqrt : ℚ → ℚ) (evs : List BEvent) : BehaviorState :=
  evs.foldl (fun s e => bStep jsSqrt e s) initialBehaviorState

/-- The derived profile of the behavior classifier. -/
structure BehaviorProfile where
  personality : Personality
  confidence : ℚ
  engagement : ℚ
  familiarity : ℚ
  deriving DecidableEq

/-- Source: `avgClickSpeed` inside `calculateProfile`; defaults to 1000
when the click-speed history is empty. -/
def avgClickSpeed (m : BehaviorMetrics) : ℚ :=
  if m.clickSpeed.length > 0 then m.clickSpeed.sum / (m.clickSpeed.length : ℚ)
  else 1000

/-- Source: `clickSpeedConfidence` inside `calculateProfile`. -/
def clickSpeedConfidence (m : BehaviorMetrics) : ℚ :=
  max 0 (1 - avgClickSpeed m / 2000)

/-- Source: `directApproachRatio` inside `calculateProfile` (renamed to
avoid a clash with reserved suffixes). -/
def directApproachFrac (m : BehaviorMetrics) : ℚ :=
  if m.hoverCount > 0 then (m.directApproaches : ℚ) / (m.hoverCount : ℚ)
  else 0

/-- Source `calculateProfile`. -/
def calculateProfile (m : BehaviorMetrics) : BehaviorProfile :=
  let totalInteractions := (m.clickCount : ℚ) + (m.hoverCount : ℚ)
  let familiarity := min 1 (totalInteractions / 50)
  let confidence := clickSpeedConfidence m * 0.6 + directApproachFrac m * 0.4
  let hoverEngagement := min 1 (m.averageHoverDuration / 1500)
  let retreatPenalty := min 0.5 ((m.approachRetreatCount : ℚ) * 0.1)
  let engagement := max 0 (hoverEngagement - retreatPenalty)
  let personality : Personality :=
    if familiarity > 0.7 ∧ confidence > 0.6 then .calm
    else if confidence > 0.7 ∧ m.directApproaches > 3 then .assertive
    else if m.hoverWithoutClick > 5 ∨ m.approachRetreatCount > 3 then .inviting
    else if engagement > 0.6 ∧ m.averageHoverDuration > 800 then .curious
    else if m.approachRetreatCount > 1 ∨ avgClickSpeed m > 1500 then .hesitant
    else .calm
  { personality := personality
    confidence := min 1 (max 0 confidence)
    engagement := min 1 (max 0 engagement)
    familiarity := familiarity }

/-! ## Intent Detection classifier (useIntentDetection.ts) -/

inductive Intent where
  | browsing | searching | reading | comparing | deciding | leaving
  deriving DecidableEq

inductive ScrollDir where
  | up | down | none
  deriving DecidableEq

/-- Source interface `ScrollPattern`. -/
structure ScrollPattern where
  timestamp : ℚ
  position : ℚ
  velocity : ℚ
  direction : ScrollDir
  deriving DecidableEq

/-- Source interface `FocusEvent`. -/
structure FocusRecord where
  timestamp : ℚ
  element : Option String
  duration : ℚ
  deriving DecidableEq

/-- Source interface `IntentSignals` (the accumulator of
`useIntentDetection`; held only in component state, never persisted). -/
structure IntentSignals where
  scrollPatterns : List ScrollPattern
  focusEvents : List FocusRecord
  pauseCount : ℕ
  directionChanges : ℕ
  averageVelocity : ℚ
  timeOnSurface : ℚ
  lastActivity : ℚ
  deriving DecidableEq

/-- The ref cells of the hook (`lastScrollPosition`, `lastScrollTime`,
`lastDirection`, `surfaceEntryTime`, `currentFocusElement`,
`focusStartTime`).  The pause timer is modelled by a separate
`pauseFire` event delivered by the environment when the 800ms debounce
timer fires. -/
structure IntentRefs where
  lastScrollPosition : ℚ
  lastScrollTime : ℚ
  lastDirection : ScrollDir
  surfaceEntryTime : ℚ
  currentFocusElement : Option String
  focusStartTime : ℚ
  deriving DecidableEq

structure IntentState where
  signals : IntentSignals
  refs : IntentRefs
  deriving DecidableEq

/-- Initial signals at mount time `t` (`lastActivity: Date.now()`). -/
def initialIntentSignals (t : ℚ) : IntentSignals :=
  { scrollPatterns := []
    focusEvents := []
    pauseCount := 0
    directionChanges := 0
    averageVelocity := 0
    timeOnSurface := 0
    lastActivity := t }

def initialIntentState (t : ℚ) : IntentState :=
  { signals := initialIntentSignals t
    refs :=
      { lastScrollPosition := 0
        lastScrollTime := t
        lastDirection := .none
        surfaceEntryTime := t
        currentFocusElement := none
        focusStartTime := t } }

/-- Input events of the intent hook.  `pauseFire` is the 800ms pause
timer callback; `tick` is the 1s `setInterval` updating `timeOnSurface`. -/
inductive IEvent where
  | scroll (now scrollY containerHeight : ℚ)
  | pauseFire (now : ℚ)
  | focusChange (now : ℚ) (elementId : Option String)
  | mouseMove (now x y : ℚ) (rect : Rect)
  | tick (now : ℚ)
  deriving DecidableEq

/-- Source `onScroll`. -/
def iOnScroll (now scrollY containerHeight : ℚ) (s : IntentState) : IntentState :=
  let timeDelta := now - s.refs.lastScrollTime
  let positionDelta := scrollY - s.refs.lastScrollPosition
  let velocity := if timeDelta > 0 then |positionDelta| / timeDelta * 1000 else 0
  let direction : ScrollDir :=
    if positionDelta > 5 then .down else if positionDelta < -5 then .up else .none
  let isDirectionChange :=
    direction ≠ ScrollDir.none ∧ s.refs.lastDirection ≠ ScrollDir.none ∧
      direction ≠ s.refs.lastDirection
  let newPattern : ScrollPattern :=
    { timestamp := now
      position := scrollY / containerHeight
      velocity := velocity
      direction := direction }
  let patterns := sliceLast 30 s.signals.scrollPatterns ++ [newPattern]
  let avgVelocity := (patterns.map ScrollPattern.velocity).sum / (patterns.length : ℚ)
  { signals := { s.signals with
      scrollPatterns := patterns
      directionChanges :=
        if isDirectionChange then s.signals.directionChanges + 1
        else s.signals.directionChanges
      averageVelocity := avgVelocity
      lastActivity := now }
    refs := { s.refs with
      lastScrollPosition := scrollY
      lastScrollTime := now
      lastDirection :=
        if direction ≠ ScrollDir.none then direction else s.refs.lastDirection } }

/-- The pause timer callback armed by `onScroll` (800ms debounce). -/
def iOnPauseFire (now : ℚ) (s : IntentState) : IntentState :=
  { s with signals := { s.signals with
      pauseCount := s.signals.pauseCount + 1
      lastActivity := now } }

/-- Source `onFocusChange`. -/
def iOnFocusChange (now : ℚ) (elementId : Option String) (s : IntentState) :
    IntentState :=
  let s1 :=
    match s.refs.currentFocusElement with
    | some prev =>
        let newEvent : FocusRecord :=
          { timestamp := now
            element := some prev
            duration := now - s.refs.focusStartTime }
        { s with signals := { s.signals with
            focusEvents := sliceLast 20 s.signals.focusEvents ++ [newEvent]
            lastActivity := now } }
    | none => s
  { s1 with refs := { s1.refs with
      currentFocusElement := elementId
      focusStartTime := now } }

/-- Source `onMouseMove` of the intent hook: edge proximity only bumps
`lastActivity`. -/
def iOnMouseMove (now x y : ℚ) (rect : Rect) (s : IntentState) : IntentState :=
  let edgeThreshold : ℚ := 50
  let nearEdge :=
    x < edgeThreshold ∨ x > rect.width - edgeThreshold ∨
    y < edgeThreshold ∨ y > rect.height - edgeThreshold
  if nearEdge then
    { s with signals := { s.signals with lastActivity := now } }
  else s

/-- The 1s interval updating `timeOnSurface`. -/
def iOnTick (now : ℚ) (s : IntentState) : IntentState :=
  { s with signals := { s.signals with
      timeOnSurface := now - s.refs.surfaceEntryTime } }

def iStep (e : IEvent) (s : IntentState) : IntentState :=
  match e with
  | .scroll now y h => iOnScroll now y h s
  | .pauseFire now => iOnPauseFire now s
  | .focusChange now el => iOnFocusChange now el s
  | .mouseMove now x y rect => iOnMouseMove now x y rect s
  | .tick now => iOnTick now s

/-- Run the intent hook mounted at time `t0` over an event list. -/
def iRun (t0 : ℚ) (evs : List IEvent) : IntentState :=
  evs.foldl (fun s e => iStep e s) (initialIntentState t0)

inductive LayoutKind where
  | expanded | compact | focused | minimal
  deriving DecidableEq

structure IntentProfile where
  currentIntent : Intent
  confidence : ℚ
  attention : ℚ
  urgency : ℚ
  suggestedLayout : LayoutKind
  deriving DecidableEq

/-- Source: the `switch (currentIntent)` choosing `suggestedLayout`. -/
def suggestedLayoutFor : Intent → LayoutKind
  | .searching => .compact
  | .reading => .focused
  | .comparing => .expanded
  | .deciding => .focused
  | .leaving => .minimal
  | .browsing => .expanded

/-- Source: `recentVelocity` in `calculateIntent`
(`scrollPatterns.slice(-5).reduce(..., 0) / 5 || 0`; the division is by
the constant 5 even when fewer than 5 samples exist, and the trailing
`|| 0` only maps NaN to 0, which rational division never produces). -/
def recentVelocityOf (signals : IntentSignals) : ℚ :=
  ((sliceLast 5 signals.scrollPatterns).map ScrollPattern.velocity).sum / 5

/-- Source: `avgFocusDuration` in `calculateIntent`. -/
def avgFocusDuration (signals : IntentSignals) : ℚ :=
  if signals.focusEvents.length > 0 then
    (signals.focusEvents.map FocusRecord.duration).sum / (signals.focusEvents.length : ℚ)
  else 0

/-- Source `calculateIntent`, the if-chain assigning intent and scores.
The fifth branch reads `Date.now()`; the evaluation time is the explicit
parameter `now`. -/
def intentScores (signals : IntentSignals) (now : ℚ) : Intent × ℚ × ℚ × ℚ :=
  let recentVelocity := recentVelocityOf signals
  let recentPauses := signals.pauseCount
  let recentDirectionChanges := signals.directionChanges
  if recentVelocity > 300 ∧ recentPauses < 2 ∧ recentDirectionChanges < 3 then
    (.searching, min 0.9 (recentVelocity / 500), 0.4, 0.8)
  else if recentVelocity < 100 ∧ recentPauses > 3 ∧ avgFocusDuration signals > 1000 then
    (.reading, min 0.9 (avgFocusDuration signals / 3000), 0.9, 0.1)
  else if recentDirectionChanges > 5 ∧ recentVelocity > 50 ∧ recentVelocity < 300 then
    (.comparing, min 0.85 ((recentDirectionChanges : ℚ) / 10), 0.7, 0.5)
  else if recentPauses > 5 ∧ recentVelocity < 50 ∧ avgFocusDuration signals > 500 then
    (.deciding, min 0.85 ((recentPauses : ℚ) / 8), 0.85, 0.6)
  else if now - signals.lastActivity > 5000 ∨ recentVelocity > 500 then
    (.leaving, 0.6, 0.2, 0.9)
  else
    (.browsing, 0.5, 0.5, 0.3)

/-- Source `calculateIntent` assembled into the returned profile. -/
def calculateIntent (signals : IntentSignals) (now : ℚ) : IntentProfile :=
  let r := intentScores signals now
  { currentIntent := r.1
    confidence := r.2.1
    attention := r.2.2.1
    urgency := r.2.2.2
    suggestedLayout := suggestedLayoutFor r.1 }

/-! ## Interaction Memory classifier (useInteractionMemory.ts) -/

inductive InteractionType where
  | glance | study | engage | returnVisit
  deriving DecidableEq

inductive EmotionalSignature where
  | curious | impatient | thorough | distracted
  deriving DecidableEq

inductive RevealSpeed where
  | slow | medium | fast
  deriving DecidableEq

structure FocusPoint where
  x : ℚ
  y : ℚ
  deriving DecidableEq

/-- Source interface `MemoryLayer`. -/
structure MemoryLayer where
  timestamp : ℚ
  interactionType : InteractionType
  duration : ℚ
  focusPoints : List FocusPoint
  scrollDepth : ℚ
  emotionalSignature : EmotionalSignature
  deriving DecidableEq

/-- Source interface `InteractionMemory` (the persisted accumulator of
`useInteractionMemory`). -/
structure InteractionMemory where
  visitCount : ℕ
  totalTimeSpent : ℚ
  layers : List MemoryLayer
  lastVisit : ℚ
  recognitionLevel : ℚ
  revealProgress : ℚ
  preferredRevealSpeed : RevealSpeed
  deriving DecidableEq

/-- Source `currentSession` state (in-memory only). -/
structure MemorySession where
  startTime : ℚ
  focusPoints : List FocusPoint
  isActive : Bool
  scrollDepth : ℚ
  deriving DecidableEq

structure MemoryState where
  memory : InteractionMemory
  session : MemorySession
  deriving DecidableEq

/-- Source `getDefaultMemory()`. -/
def getDefaultMemory : InteractionMemory :=
  { visitCount := 0
    totalTimeSpent := 0
    layers := []
    lastVisit := 0
    recognitionLevel := 0
    revealProgress := 0
    preferredRevealSpeed := .medium }

def initialMemorySession : MemorySession :=
  { startTime := 0, focusPoints := [], isActive := false, scrollDepth := 0 }

def initialMemoryState : MemoryState :=
  { memory := getDefaultMemory, session := initialMemorySession }

/-- Input events of the memory hook (the glance/study timeouts in the
source have empty callbacks and are observationally inert). -/
inductive MEvent where
  | enter (now : ℚ)
  | mouseMove (x y : ℚ)
  | scroll (depth : ℚ)
  | leave (now : ℚ)
  deriving DecidableEq

/-- Source `calculateAverageMovement`: the mean Euclidean distance between
consecutive focus points, 0 when fewer than two points exist.  `jsSqrt`
stands for `Math.sqrt`. -/
def pairMovements (jsSqrt : ℚ → ℚ) : List FocusPoint → List ℚ
  | p :: q :: rest =>
      jsSqrt ((q.x - p.x) * (q.x - p.x) + (q.y - p.y) * (q.y - p.y)) ::
        pairMovements jsSqrt (q :: rest)
  | _ => []

def calculateAverageMovement (jsSqrt : ℚ → ℚ) (points : List FocusPoint) : ℚ :=
  if points.length < 2 then 0
  else (pairMovements jsSqrt points).sum / ((points.length : ℚ) - 1)

/-- Source: `timeSinceLastVisit = memory.lastVisit ? Date.now() -
memory.lastVisit : Infinity`.  The JS `Infinity` arm (when `lastVisit` is
the falsy 0) is represented by `none`. -/
def timeSinceLastVisit (mem : InteractionMemory) (now : ℚ) : Option ℚ :=
  if mem.lastVisit = 0 then none else some (now - mem.lastVisit)

/-- Source: `isReturningUser = timeSinceLastVisit > 60000 &&
memory.visitCount > 0` (`Infinity > 60000` is true). -/
def isReturningUser (mem : InteractionMemory) (now : ℚ) : Bool :=
  (match timeSinceLastVisit mem now with
   | none => true
   | some t => decide (t > 60000)) && decide (mem.visitCount > 0)

/-- Source: the `decayFactor` in `onLeave`; with `timeSinceLastVisit =
Infinity` the JS expression `Math.max(0.5, 1 - Infinity / week)` is 0.5. -/
def decayFactor (mem : InteractionMemory) (now : ℚ) : ℚ :=
  match timeSinceLastVisit mem now with
  | none => 0.5
  | some t => max 0.5 (1 - t / (7 * 24 * 60 * 60 * 1000))

/-- Source `onEnter` (the armed glance/study timeouts have empty bodies). -/
def mOnEnter (now : ℚ) (s : MemoryState) : MemoryState :=
  { s with session :=
      { startTime := now, focusPoints := [], isActive := true, scrollDepth := 0 } }

/-- Source `onMouseMove` of the memory hook. -/
def mOnMouseMove (x y : ℚ) (s : MemoryState) : MemoryState :=
  if s.session.isActive = false then s
  else
    { s with session := { s.session with
        focusPoints := sliceLast 50 s.session.focusPoints ++ [⟨x, y⟩] } }

/-- Source `onScroll` of the memory hook. -/
def mOnScroll (depth : ℚ) (s : MemoryState) : MemoryState :=
  { s with session := { s.session with
      scrollDepth := max s.session.scrollDepth depth } }

/-- Source `onLeave`.  `timeSinceLastVisit` and `isReturningUser` are
computed in the component body from `Date.now()`; the callback closes over
the values of the render in which the leave event fires, so both are
evaluated at the same `now` as the handler. -/
def mOnLeave (jsSqrt : ℚ → ℚ) (now : ℚ) (s : MemoryState) : MemoryState :=
  if s.session.isActive = false then s
  else
    let duration := now - s.session.startTime
    let interactionType : InteractionType :=
      if isReturningUser s.memory now then .returnVisit
      else if duration < 500 then .glance
      else if duration < 2000 then .engage
      else .study
    let avgMovement := calculateAverageMovement jsSqrt s.session.focusPoints
    let emotionalSignature : EmotionalSignature :=
      if avgMovement > 50 ∧ duration < 1000 then .impatient
      else if duration > 3000 ∧ s.session.scrollDepth > 0.5 then .thorough
      else if avgMovement > 30 then .distracted
      else .curious
    let newLayer : MemoryLayer :=
      { timestamp := now
        interactionType := interactionType
        duration := duration
        focusPoints := sliceLast 20 s.session.focusPoints
        scrollDepth := s.session.scrollDepth
        emotionalSignature := emotionalSignature }
    let recognitionGrowth : ℚ :=
      0.1 * (if interactionType = .study then 2 else 1)
    let newRecognition :=
      min 1 (s.memory.recognitionLevel * decayFactor s.memory now + recognitionGrowth)
    let revealIncrease : ℚ :=
      if interactionType = .study then 0.15
      else if interactionType = .engage then 0.08
      else if interactionType = .returnVisit then 0.1
      else 0.02
    let newRevealProgress := min 1 (s.memory.revealProgress + revealIncrease)
    let recentLayers := sliceLast 5 s.memory.layers ++ [newLayer]
    let avgDuration :=
      (recentLayers.map MemoryLayer.duration).sum / (recentLayers.length : ℚ)
    let preferredRevealSpeed : RevealSpeed :=
      if avgDuration > 3000 then .slow
      else if avgDuration > 1500 then .medium
      else .fast
    { memory :=
        { visitCount := s.memory.visitCount + 1
          totalTimeSpent := s.memory.totalTimeSpent + duration
          layers := sliceLast 50 s.memory.layers ++ [newLayer]
          lastVisit := now
          recognitionLevel := newRecognition
          revealProgress := newRevealProgress
          preferredRevealSpeed := preferredRevealSpeed }
      session := { s.session with isActive := false } }

def mStep (jsSqrt : ℚ → ℚ) (e : MEvent) (s : MemoryState) : MemoryState :=
  match e with
  | .enter now => mOnEnter now s
  | .mouseMove x y => mOnMouseMove x y s
  | .scroll depth => mOnScroll depth s
  | .leave now => mOnLeave jsSqrt now s

def mRun (jsSqrt : ℚ → ℚ) (evs : List MEvent) : MemoryState :=
  evs.foldl (fun s e => mStep jsSqrt e s) initialMemoryState

/-- Source: `currentMood`, the emotional signature of the most recent
layer, defaulting to `curious`. -/
def currentMood (mem : InteractionMemory) : EmotionalSignature :=
  match mem.layers.getLast? with
  | some l => l.emotionalSignature
  | none => .curious

/-! ## Persistence adapter (localStorage) -/

/-- Serialized values held by the key-value store.  `JSON.stringify` and
`JSON.parse` round-trip the plain data records `BehaviorMetrics` and
`InteractionMemory` exactly, so the serialized blob is modelled by the
typed injections below. -/
inductive StoredValue where
  | behaviorVal (m : BehaviorMetrics)
  | memoryVal (m : InteractionMemory)
  deriving DecidableEq

/-- The flat key-value store; a later write to a key shadows an earlier
one. -/
abbrev Store := List (String × StoredValue)

def storeSet (st : Store) (k : String) (v : StoredValue) : Store :=
  (k, v) :: st

def storeGet (st : Store) (k : String) : Option StoredValue :=
  (st.find? (fun p => p.1 = k)).map (fun p => p.2)

/-- Source of useBehaviorProfile: STORAGE_KEY_PREFIX is "cognitive_btn_"
and storageKey appends the caller-supplied component id. -/
def behaviorStorageKey (componentId : String) : String :=
  "cognitive_btn_" ++ componentId

/-- Source of useInteractionMemory: STORAGE_KEY_PREFIX is "memory_card_"
and storageKey appends the caller-supplied card id. -/
def memoryStorageKey (cardId : String) : String :=
  "memory_card_" ++ cardId

/-- One event of `useBehaviorProfile` together with its persistence
effect.  The effect hook watching `metrics` rewrites the stored value to
the serialized current metrics whenever they change, and the mount effect
writes the initial metrics, so after every event the store entry holds the
serialized current metrics; the unconditional write below reproduces
exactly that store content. -/
def bStepPersist (componentId : String) (jsSqrt : ℚ → ℚ) (e : BEvent)
    (p : BehaviorState × Store) : BehaviorState × Store :=
  let s := bStep jsSqrt e p.1
  (s, storeSet p.2 (behaviorStorageKey componentId) (.behaviorVal s.metrics))

/-- One event of `useInteractionMemory` together with its persistence
effect (the effect hook watching `memory`). -/
def mStepPersist (cardId : String) (jsSqrt : ℚ → ℚ) (e : MEvent)
    (p : MemoryState × Store) : MemoryState × Store :=
  let s := mStep jsSqrt e p.1
  (s, storeSet p.2 (memoryStorageKey cardId) (.memoryVal s.memory))

/-- One event of `useIntentDetection` together with its persistence
effect: the source of this hook contains no storage access at all (no
storage key, no load, no save), so the store passes through unchanged. -/
def iStepPersist (e : IEvent) (p : IntentState × Store) : IntentState × Store :=
  (iStep e p.1, p.2)

/-- Source of the `useState` initializer of `useBehaviorProfile`:
`stored ? JSON.parse(stored) : getDefaultMetrics()` where `stored` is the
result of the storage lookup.  The empty string is falsy in JS, hence also
yields the defaults.  `parse` stands for `JSON.parse`; the `SyntaxError`
it throws on malformed input is modelled by `Except.error`, and the
initializer contains no catch, so the error propagates to the caller. -/
def loadBehaviorMetrics (stored : Option String)
    (parse : String → Except String BehaviorMetrics) :
    Except String BehaviorMetrics :=
  match stored with
  | none => .ok getDefaultMetrics
  | some s => if s = "" then .ok getDefaultMetrics else parse s

/-- Source of the `useState` initializer of `useInteractionMemory`,
identical in shape to the behavior one. -/
def loadInteractionMemory (stored : Option String)
    (parse : String → Except String InteractionMemory) :
    Except String InteractionMemory :=
  match stored with
  | none => .ok getDefaultMemory
  | some s => if s = "" then .ok getDefaultMemory else parse s

/-! ## Spec-side definitions used for refinement claims -/

/-- Modelled from the spec wording of claim C4 (section 4.1): the
priority-ordered personality rule chain, first matching rule wins, over
the spec formulas for familiarity, confidence and engagement. -/
def specPersonality (m : BehaviorMetrics) : Personality :=
  let familiarity := min 1 (((m.clickCount : ℚ) + (m.hoverCount : ℚ)) / 50)
  let avgClickLatency :=
    if m.clickSpeed.length > 0 then m.clickSpeed.sum / (m.clickSpeed.length : ℚ)
    else 1000
  let clickSpeedConf := max 0 (1 - avgClickLatency / 2000)
  let approachShare :=
    if m.hoverCount > 0 then (m.directApproaches : ℚ) / (m.hoverCount : ℚ) else 0
  let confidence := 0.6 * clickSpeedConf + 0.4 * approachShare
  let engagement :=
    max 0 (min 1 (m.averageHoverDuration / 1500) -
      min 0.5 (0.1 * (m.approachRetreatCount : ℚ)))
  if familiarity > 0.7 ∧ confidence > 0.6 then .calm
  else if confidence > 0.7 ∧ m.directApproaches > 3 then .assertive
  else if m.hoverWithoutClick > 5 ∨ m.approachRetreatCount > 3 then .inviting
  else if engagement > 0.6 ∧ m.averageHoverDuration > 800 then .curious
  else if m.approachRetreatCount > 1 ∨ avgClickLatency > 1500 then .hesitant
  else .calm

/-- The click timestamps occurring in a behavior event trace, used to
state the double-click claim C8. -/
def clickTimesOf (evs : List BEvent) : List ℚ :=
  evs.filterMap (fun e => match e with | .click t => some t | _ => none)

theorem length_sliceLast_append (n : ℕ) (l : List α) (x : α) :
    (sliceLast n l ++ [x]).length ≤ n + 1 := by
  simp [sliceLast]
  omega

theorem foldl_preserve {σ ε : Type _} (P : σ → Prop) (f : σ → ε → σ)
    (hstep : ∀ s e, P s → P (f s e)) :
    ∀ (evs : List ε) (s : σ), P s → P (evs.foldl f s) := by
  intro evs
  induction evs with
  | nil => intro s h; exact h
  | cons e rest ih => intro s h; exact ih (f s e) (hstep s e h)

theorem onMouseMove_session (jsSqrt : ℚ → ℚ) (pos : ℚ × ℚ) (rect : Rect)
    (s : BehaviorState) :
    (onMouseMove jsSqrt pos rect s).session.isHovering = s.session.isHovering ∧
    (onMouseMove jsSqrt pos rect s).session.lastMousePosition = some pos ∧
    (onMouseMove jsSqrt pos rect s).metrics.hoverVelocity.length =
      (if s.session.lastMousePosition.isSome ∧ s.session.isHovering = true
       then min 20 s.metrics.hoverVelocity.length + 1
       else s.metrics.hoverVelocity.length) := by
  rcases hmp : s.session.lastMousePosition with _ | last
  · simp [onMouseMove, hmp]
  · refine ⟨?_, ?_, ?_⟩
    · simp only [onMouseMove, hmp]
    · simp only [onMouseMove, hmp]
    · by_cases hh : s.session.isHovering = true
      · simp only [onMouseMove, hmp, hh, Option.isSome_some, true_and, ite_true]
        split <;> · simp [sliceLast]; omega
      · simp only [onMouseMove, hmp, hh, Option.isSome_some, true_and, ite_false]
        simp only [Bool.not_eq_true] at hh
        simp only [hh, Bool.false_eq_true, ite_false]
        split <;> rfl

theorem bStep_hoverVelocity_le (jsSqrt : ℚ → ℚ) (s : BehaviorState) (e : BEvent)
    (h : s.metrics.hoverVelocity.length ≤ 21) :
    (bStep jsSqrt e s).metrics.hoverVelocity.length ≤ 21 := by
  cases e with
  | hoverStart now pos => simpa [bStep, onHoverStart] using h
  | hoverEnd now =>
      simp only [bStep, onHoverEnd]
      split
      · exact h
      · simpa using h
  | mouseMove pos rect =>
      have hm := (onMouseMove_session jsSqrt pos rect s).2.2
      simp only [bStep]
      rw [hm]
      split
      · omega
      · exact h
  | click now => simpa [bStep, onClick] using h
  | approachRetreat => simpa [bStep, onApproachRetreat] using h

theorem c1_fold_len (jsSqrt : ℚ → ℚ) (pos : ℚ × ℚ) (rect : Rect) :
    ∀ (k : ℕ) (s : BehaviorState), s.session.isHovering = true →
      s.session.lastMousePosition.isSome →
      s.metrics.hoverVelocity.length ≤ 21 →
      ((List.replicate k (BEvent.mouseMove pos rect)).foldl
          (fun s e => bStep jsSqrt e s) s).metrics.hoverVelocity.length
        = min (s.metrics.hoverVelocity.length + k) 21 := by
  intro k
  induction k with
  | zero =>
      intro s _ _ h21
      simpa using (Nat.min_eq_left h21).symm
  | succ k ih =>
      intro s hh hs h21
      have hsess := onMouseMove_session jsSqrt pos rect s
      have hstep : (bStep jsSqrt (BEvent.mouseMove pos rect) s).metrics.hoverVelocity.length
          = min 20 s.metrics.hoverVelocity.length + 1 := by
        simp only [bStep]
        rw [hsess.2.2]
        rw [if_pos ⟨hs, hh⟩]
      rw [List.replicate_succ, List.foldl_cons]
      rw [ih (bStep jsSqrt (BEvent.mouseMove pos rect) s)
        (by simp only [bStep]; rw [hsess.1]; exact hh)
        (by simp only [bStep]; rw [hsess.2.1]; rfl)
        (by rw [hstep]; omega)]
      rw [hstep]
      omega

theorem iStep_scrollPatterns_le (s : IntentState) (e : IEvent)
    (h : s.signals.scrollPatterns.length ≤ 31) :
    (iStep e s).signals.scrollPatterns.length ≤ 31 := by
  cases e with
  | scroll now y ch =>
      simp only [iStep, iOnScroll]
      exact length_sliceLast_append 30 _ _
  | pauseFire now => simpa [iStep, iOnPauseFire] using h
  | focusChange now el =>
      simp only [iStep, iOnFocusChange]
      cases s.refs.currentFocusElement
      · simpa using h
      · simpa using h
  | mouseMove now x y rect =>
      simp only [iStep, iOnMouseMove]
      split
      · simpa using h
      · exact h
  | tick now => simpa [iStep, iOnTick] using h

theorem mStep_layers_le (jsSqrt : ℚ → ℚ) (s : MemoryState) (e : MEvent)
    (h : s.memory.layers.length ≤ 51) :
    (mStep jsSqrt e s).memory.layers.length ≤ 51 := by
  cases e with
  | enter now => simpa [mStep, mOnEnter] using h
  | mouseMove x y =>
      simp only [mStep, mOnMouseMove]
      split
      · exact h
      · simpa using h
  | scroll depth => simpa [mStep, mOnScroll] using h
  | leave now =>
      simp only [mStep, mOnLeave]
      split
      · exact h
      · exact length_sliceLast_append 50 _ _

/-! ## C1 -/

/-- Concrete trace for claim C1: a hover start followed by 25 mouse moves
during the open hover session. -/
def c1Trace : List BEvent :=
  BEvent.hoverStart 0 (5, 5) ::
    List.replicate 25 (BEvent.mouseMove (5, 5) ⟨0, 0, 100, 40⟩)

/-- C1 counterexample: after 25 `onMouseMove` calls during one open hover
session the hover-velocity history holds 21 entries, exceeding the
declared capacity of 20 (the source keeps `slice(-20)` of the previous
history, which has up to 20 entries, and then appends one more sample). -/
theorem c1_counterexample :
    (bRun intSqrt c1Trace).metrics.hoverVelocity.length = 21 ∧
    ¬((bRun intSqrt c1Trace).metrics.hoverVelocity.length ≤ 20) := by
  have h := c1_fold_len intSqrt (5, 5) ⟨0, 0, 100, 40⟩ 25
    (bStep intSqrt (BEvent.hoverStart 0 (5, 5)) initialBehaviorState)
    rfl rfl (by norm_num [bStep, onHoverStart, initialBehaviorState, getDefaultMetrics])
  have hb : (bRun intSqrt c1Trace).metrics.hoverVelocity.length = 21 := by
    rw [bRun, c1Trace, List.foldl_cons, h]
    norm_num [bStep, onHoverStart, initialBehaviorState, getDefaultMetrics]
  exact ⟨hb, by omega⟩

/-- C1 amended: for every square-root interpretation and every input
sequence, the hover-velocity history holds at most 21 entries, the
scroll-pattern history at most 31, and the layer history at most 51 (each
exactly one more than the capacity stated by the claim). -/
theorem c1_bounded_histories :
    (∀ (jsSqrt : ℚ → ℚ) (evs : List BEvent),
      (bRun jsSqrt evs).metrics.hoverVelocity.length ≤ 21) ∧
    (∀ (t0 : ℚ) (evs : List IEvent),
      (iRun t0 evs).signals.scrollPatterns.length ≤ 31) ∧
    (∀ (jsSqrt : ℚ → ℚ) (evs : List MEvent),
      (mRun jsSqrt evs).memory.layers.length ≤ 51) := by
  refine ⟨fun jsSqrt evs => ?_, fun t0 evs => ?_, fun jsSqrt evs => ?_⟩
  · exact foldl_preserve (fun s => s.metrics.hoverVelocity.length ≤ 21) _
      (fun s e h => bStep_hoverVelocity_le jsSqrt s e h) evs initialBehaviorState
      (by simp [initialBehaviorState, getDefaultMetrics])
  · exact foldl_preserve (fun s => s.signals.scrollPatterns.length ≤ 31) _
      (fun s e h => iStep_scrollPatterns_le s e h) evs (initialIntentState t0)
      (by simp [initialIntentState, initialIntentSignals])
  · exact foldl_preserve (fun s => s.memory.layers.length ≤ 51) _
      (fun s e h => mStep_layers_le jsSqrt s e h) evs initialMemoryState
      (by simp [initialMemoryState, getDefaultMemory])

theorem calculateProfile_bounds (m : BehaviorMetrics) :
    0 ≤ (calculateProfile m).confidence ∧ (calculateProfile m).confidence ≤ 1 ∧
    0 ≤ (calculateProfile m).engagement ∧ (calculateProfile m).engagement ≤ 1 ∧
    0 ≤ (calculateProfile m).familiarity ∧ (calculateProfile m).familiarity ≤ 1 := by
  simp only [calculateProfile]
  refine ⟨le_min (by norm_num) (le_max_left _ _), min_le_left _ _,
    le_min (by norm_num) (le_max_left _ _), min_le_left _ _,
    le_min (by norm_num) (by positivity), min_le_left _ _⟩

theorem calculateIntent_bounds (s : IntentSignals) (now : ℚ) :
    0 ≤ (calculateIntent s now).confidence ∧ (calculateIntent s now).confidence ≤ 1 ∧
    0 ≤ (calculateIntent s now).attention ∧ (calculateIntent s now).attention ≤ 1 ∧
    0 ≤ (calculateIntent s now).urgency ∧ (calculateIntent s now).urgency ≤ 1 := by
  simp only [calculateIntent, intentScores]
  split_ifs with h1 h2 h3 h4 h5
  · refine ⟨le_min (by norm_num) ?_, le_trans (min_le_left _ _) (by norm_num),
      by norm_num, by norm_num, by norm_num, by norm_num⟩
    have := h1.1
    positivity
  · refine ⟨le_min (by norm_num) ?_, le_trans (min_le_left _ _) (by norm_num),
      by norm_num, by norm_num, by norm_num, by norm_num⟩
    have := h2.2.2
    positivity
  · refine ⟨le_min (by norm_num) (by positivity),
      le_trans (min_le_left _ _) (by norm_num),
      by norm_num, by norm_num, by norm_num, by norm_num⟩
  · refine ⟨le_min (by norm_num) (by positivity),
      le_trans (min_le_left _ _) (by norm_num),
      by norm_num, by norm_num, by norm_num, by norm_num⟩
  · exact ⟨by norm_num, by norm_num, by norm_num, by norm_num, by norm_num, by norm_num⟩
  · exact ⟨by norm_num, by norm_num, by norm_num, by norm_num, by norm_num, by norm_num⟩

theorem decayFactor_nonneg (mem : InteractionMemory) (now : ℚ) :
    0 ≤ decayFactor mem now := by
  unfold decayFactor
  cases timeSinceLastVisit mem now with
  | none => norm_num
  | some t => exact le_trans (by norm_num) (le_max_left _ _)

def memScoreInv (s : MemoryState) : Prop :=
  0 ≤ s.memory.recognitionLevel ∧ s.memory.recognitionLevel ≤ 1 ∧
  0 ≤ s.memory.revealProgress ∧ s.memory.revealProgress ≤ 1

theorem mStep_scoreInv (jsSqrt : ℚ → ℚ) (s : MemoryState) (e : MEvent)
    (h : memScoreInv s) : memScoreInv (mStep jsSqrt e s) := by
  obtain ⟨h1, h2, h3, h4⟩ := h
  cases e with
  | enter now => exact ⟨h1, h2, h3, h4⟩
  | mouseMove x y =>
      simp only [mStep, mOnMouseMove]
      split
      · exact ⟨h1, h2, h3, h4⟩
      · exact ⟨h1, h2, h3, h4⟩
  | scroll depth => exact ⟨h1, h2, h3, h4⟩
  | leave now =>
      simp only [mStep, mOnLeave]
      split
      · exact ⟨h1, h2, h3, h4⟩
      · refine ⟨?_, ?_, ?_, ?_⟩ <;> simp only [memScoreInv]
        · refine le_min (by norm_num) ?_
          have hd := decayFactor_nonneg s.memory now
          have : (0:ℚ) ≤ 0.1 * (if (if isReturningUser s.memory now = true then
              InteractionType.returnVisit
            else if now - s.session.startTime < 500 then InteractionType.glance
            else if now - s.session.startTime < 2000 then InteractionType.engage
            else InteractionType.study) = InteractionType.study then 2 else 1) := by
            split_ifs <;> norm_num
          have hm : 0 ≤ s.memory.recognitionLevel * decayFactor s.memory now :=
            mul_nonneg h1 hd
          linarith
        · exact min_le_left _ _
        · refine le_min (by norm_num) ?_
          have : (0:ℚ) ≤ (if (if isReturningUser s.memory now = true then
              InteractionType.returnVisit
            else if now - s.session.startTime < 500 then InteractionType.glance
            else if now - s.session.startTime < 2000 then InteractionType.engage
            else InteractionType.study) = InteractionType.study then (0.15:ℚ)
            else if (if isReturningUser s.memory now = true then
              InteractionType.returnVisit
            else if now - s.session.startTime < 500 then InteractionType.glance
            else if now - s.session.startTime < 2000 then InteractionType.engage
            else InteractionType.study) = InteractionType.engage then 0.08
            else if (if isReturningUser s.memory now = true then
              InteractionType.returnVisit
            else if now - s.session.startTime < 500 then InteractionType.glance
            else if now - s.session.startTime < 2000 then InteractionType.engage
            else InteractionType.study) = InteractionType.returnVisit then 0.1
            else 0.02) := by
            split_ifs <;> norm_num
          linarith
        · exact min_le_left _ _

/-- C2: every continuous derived score lies in the unit interval: the
behavior profile scores for every accumulator value, the intent scores for
every signal accumulator and evaluation time, and the persisted
recognition and reveal scores of the memory classifier along every event
sequence. -/
theorem c2_scores_in_unit_interval :
    (∀ m : BehaviorMetrics,
      0 ≤ (calculateProfile m).confidence ∧ (calculateProfile m).confidence ≤ 1 ∧
      0 ≤ (calculateProfile m).engagement ∧ (calculateProfile m).engagement ≤ 1 ∧
      0 ≤ (calculateProfile m).familiarity ∧ (calculateProfile m).familiarity ≤ 1) ∧
    (∀ (s : IntentSignals) (now : ℚ),
      0 ≤ (calculateIntent s now).confidence ∧ (calculateIntent s now).confidence ≤ 1 ∧
      0 ≤ (calculateIntent s now).attention ∧ (calculateIntent s now).attention ≤ 1 ∧
      0 ≤ (calculateIntent s now).urgency ∧ (calculateIntent s now).urgency ≤ 1) ∧
    (∀ (jsSqrt : ℚ → ℚ) (evs : List MEvent),
      0 ≤ (mRun jsSqrt evs).memory.recognitionLevel ∧
      (mRun jsSqrt evs).memory.recognitionLevel ≤ 1 ∧
      0 ≤ (mRun jsSqrt evs).memory.revealProgress ∧
      (mRun jsSqrt evs).memory.revealProgress ≤ 1) := by
  refine ⟨calculateProfile_bounds, calculateIntent_bounds, fun jsSqrt evs => ?_⟩
  exact foldl_preserve memScoreInv _ (fun s e h => mStep_scoreInv jsSqrt s e h)
    evs initialMemoryState
    (by norm_num [memScoreInv, initialMemoryState, getDefaultMemory])

/-- C3 counterexample: `calculateIntent` is not independent of the
evaluation time: on the same fresh accumulator (lastActivity 0, empty
histories) it returns browsing when evaluated at time 1000 and leaving
when evaluated at time 10000, because the fifth rule compares the current
wall-clock time against `lastActivity`. -/
theorem c3_counterexample :
    (calculateIntent (initialIntentSignals 0) 1000).currentIntent = Intent.browsing ∧
    (calculateIntent (initialIntentSignals 0) 10000).currentIntent = Intent.leaving ∧
    calculateIntent (initialIntentSignals 0) 1000 ≠
      calculateIntent (initialIntentSignals 0) 10000 := by
  have hb : (calculateIntent (initialIntentSignals 0) 1000).currentIntent = Intent.browsing := by
    norm_num [calculateIntent, intentScores, initialIntentSignals, recentVelocityOf,
      avgFocusDuration, sliceLast]
  have hl : (calculateIntent (initialIntentSignals 0) 10000).currentIntent = Intent.leaving := by
    norm_num [calculateIntent, intentScores, initialIntentSignals, recentVelocityOf,
      avgFocusDuration, sliceLast]
  refine ⟨hb, hl, fun h => ?_⟩
  rw [h, hl] at hb
  exact Intent.noConfusion hb

/-- C3 amended: the behavior and memory calculators are pure functions of
their accumulator by construction, and `calculateIntent` depends on the
evaluation time only through the idle test of whether more than 5000ms
elapsed since `lastActivity`: two evaluations of the same accumulator at
times on the same side of that test return identical profiles. -/
theorem c3_time_dependence (s : IntentSignals) (t1 t2 : ℚ)
    (h : t1 - s.lastActivity > 5000 ↔ t2 - s.lastActivity > 5000) :
    calculateIntent s t1 = calculateIntent s t2 := by
  simp only [calculateIntent, intentScores]
  split_ifs <;> first | rfl | tauto

/-- Witness for the C3 amended theorem at a concrete accumulator and two
concrete evaluation times. -/
theorem c3_time_dependence_witness :
    ((1 - (initialIntentSignals 0).lastActivity > 5000) ↔
      (2 - (initialIntentSignals 0).lastActivity > 5000)) ∧
    calculateIntent (initialIntentSignals 0) 1 =
      calculateIntent (initialIntentSignals 0) 2 := by
  have hiff : (1 - (initialIntentSignals 0).lastActivity > 5000) ↔
      (2 - (initialIntentSignals 0).lastActivity > 5000) := by
    norm_num [initialIntentSignals]
  exact ⟨hiff, c3_time_dependence (initialIntentSignals 0) 1 2 hiff⟩

/-- C4: for every accumulator value, `calculateProfile` selects the
personality exactly by the priority-ordered first-match rule chain stated
by the spec, written out independently as `specPersonality`. -/
theorem c4_personality_rule_chain (m : BehaviorMetrics) :
    (calculateProfile m).personality = specPersonality m := by
  simp only [calculateProfile, specPersonality]
  rw [show (if m.clickSpeed.length > 0 then m.clickSpeed.sum / (m.clickSpeed.length : ℚ)
      else 1000) = avgClickSpeed m from rfl]
  rw [show (if m.hoverCount > 0 then (m.directApproaches : ℚ) / (m.hoverCount : ℚ)
      else 0) = directApproachFrac m from rfl]
  rw [show max 0 (1 - avgClickSpeed m / 2000) = clickSpeedConfidence m from rfl]
  rw [show clickSpeedConfidence m * 0.6 + directApproachFrac m * 0.4 =
      0.6 * clickSpeedConfidence m + 0.4 * directApproachFrac m from by ring]
  rw [show (m.approachRetreatCount : ℚ) * 0.1 = 0.1 * (m.approachRetreatCount : ℚ) from by
    ring]

theorem mMoves_fold (jsSqrt : ℚ → ℚ) (moves : List (ℚ × ℚ)) :
    ∀ (st : MemoryState), st.session.isActive = true →
      ((moves.map (fun p => MEvent.mouseMove p.1 p.2)).foldl
          (fun s e => mStep jsSqrt e s) st).memory = st.memory ∧
      ((moves.map (fun p => MEvent.mouseMove p.1 p.2)).foldl
          (fun s e => mStep jsSqrt e s) st).session.isActive = true ∧
      ((moves.map (fun p => MEvent.mouseMove p.1 p.2)).foldl
          (fun s e => mStep jsSqrt e s) st).session.startTime = st.session.startTime ∧
      ((moves.map (fun p => MEvent.mouseMove p.1 p.2)).foldl
          (fun s e => mStep jsSqrt e s) st).session.scrollDepth = st.session.scrollDepth := by
  induction moves with
  | nil => intro st h; exact ⟨rfl, h, rfl, rfl⟩
  | cons p rest ih =>
      intro st h
      have hstep : (mStep jsSqrt (MEvent.mouseMove p.1 p.2) st).memory = st.memory ∧
          (mStep jsSqrt (MEvent.mouseMove p.1 p.2) st).session.isActive = true ∧
          (mStep jsSqrt (MEvent.mouseMove p.1 p.2) st).session.startTime =
            st.session.startTime ∧
          (mStep jsSqrt (MEvent.mouseMove p.1 p.2) st).session.scrollDepth =
            st.session.scrollDepth := by
        simp [mStep, mOnMouseMove, h]
      obtain ⟨h1, h2, h3, h4⟩ := ih (mStep jsSqrt (MEvent.mouseMove p.1 p.2) st) hstep.2.1
      simp only [List.map_cons, List.foldl_cons]
      exact ⟨h1.trans hstep.1, h2, h3.trans hstep.2.2.1, h4.trans hstep.2.2.2⟩

/-- Event list of the C5 scenario: one session opened by `onEnter`, an
arbitrary sequence of pointer moves, a scroll reaching depth 0.6, and
(applied separately) the closing `onLeave`. -/
def c5Events (t0 : ℚ) (moves : List (ℚ × ℚ)) : List MEvent :=
  MEvent.enter t0 :: (moves.map (fun p => MEvent.mouseMove p.1 p.2) ++ [MEvent.scroll 0.6])

def c5Setup (jsSqrt : ℚ → ℚ) (t0 : ℚ) (moves : List (ℚ × ℚ)) : MemoryState :=
  mRun jsSqrt (c5Events t0 moves)

theorem c5Setup_props (jsSqrt : ℚ → ℚ) (t0 : ℚ) (moves : List (ℚ × ℚ)) :
    (c5Setup jsSqrt t0 moves).memory = getDefaultMemory ∧
    (c5Setup jsSqrt t0 moves).session.isActive = true ∧
    (c5Setup jsSqrt t0 moves).session.startTime = t0 ∧
    (c5Setup jsSqrt t0 moves).session.scrollDepth = 0.6 := by
  unfold c5Setup c5Events mRun
  rw [List.foldl_cons, List.foldl_append]
  have henter : (mStep jsSqrt (MEvent.enter t0) initialMemoryState).memory =
        getDefaultMemory ∧
      (mStep jsSqrt (MEvent.enter t0) initialMemoryState).session.isActive = true ∧
      (mStep jsSqrt (MEvent.enter t0) initialMemoryState).session.startTime = t0 ∧
      (mStep jsSqrt (MEvent.enter t0) initialMemoryState).session.scrollDepth = 0 := by
    simp [mStep, mOnEnter, initialMemoryState]
  obtain ⟨g1, g2, g3, g4⟩ :=
    mMoves_fold jsSqrt moves (mStep jsSqrt (MEvent.enter t0) initialMemoryState) henter.2.1
  simp only [List.foldl_cons, List.foldl_nil]
  have hscroll : ∀ st : MemoryState,
      (mStep jsSqrt (MEvent.scroll 0.6) st).memory = st.memory ∧
      (mStep jsSqrt (MEvent.scroll 0.6) st).session.isActive = st.session.isActive ∧
      (mStep jsSqrt (MEvent.scroll 0.6) st).session.startTime = st.session.startTime ∧
      (mStep jsSqrt (MEvent.scroll 0.6) st).session.scrollDepth =
        max st.session.scrollDepth 0.6 := by
    intro st; exact ⟨rfl, rfl, rfl, rfl⟩
  set X := List.foldl (fun s e => mStep jsSqrt e s)
    (mStep jsSqrt (MEvent.enter t0) initialMemoryState)
    (List.map (fun p => MEvent.mouseMove p.1 p.2) moves) with hX
  refine ⟨(hscroll X).1.trans (g1.trans henter.1),
    ((hscroll X).2.1).trans g2,
    ((hscroll X).2.2.1).trans (g3.trans henter.2.2.1), ?_⟩
  rw [(hscroll X).2.2.2, g4.trans henter.2.2.2]
  exact max_eq_right (by norm_num)

theorem isReturningUser_default (now : ℚ) :
    isReturningUser getDefaultMemory now = false := by
  simp [isReturningUser, timeSinceLastVisit, getDefaultMemory]

theorem mOnLeave_fresh (jsSqrt : ℚ → ℚ) (now : ℚ) (st : MemoryState)
    (hact : st.session.isActive = true)
    (hmem : st.memory = getDefaultMemory)
    (hdur : now - st.session.startTime = 2500)
    (hdepth : st.session.scrollDepth = 0.6)
    (havg : calculateAverageMovement jsSqrt st.session.focusPoints ≤ 30) :
    (mOnLeave jsSqrt now st).memory.layers.map MemoryLayer.interactionType =
      [InteractionType.study] ∧
    (mOnLeave jsSqrt now st).memory.layers.map MemoryLayer.emotionalSignature =
      [EmotionalSignature.curious] ∧
    (mOnLeave jsSqrt now st).memory.revealProgress =
      getDefaultMemory.revealProgress + 0.15 := by
  simp only [mOnLeave, hact, hmem, hdur, isReturningUser_default]
  norm_num
  rw [if_neg (not_lt.mpr havg)]
  refine ⟨?_, ?_, ?_⟩ <;> norm_num [sliceLast, getDefaultMemory]

/-- C5 counterexample: in the stated scenario (fresh accumulator, one
session opened at time 0 and closed at 2500ms, maximum scroll depth 0.6,
no pointer movement), the appended layer has interactionType study and
revealProgress rises by 0.15 as claimed, but the emotionalSignature is
curious, not thorough: the thorough rule requires duration above 3000ms,
which 2500ms does not meet. -/
theorem c5_counterexample :
    (mRun intSqrt (c5Events 0 [] ++ [MEvent.leave 2500])).memory.layers.map
        MemoryLayer.emotionalSignature = [EmotionalSignature.curious] ∧
    (mRun intSqrt (c5Events 0 [] ++ [MEvent.leave 2500])).memory.layers.map
        MemoryLayer.interactionType = [InteractionType.study] ∧
    (mRun intSqrt (c5Events 0 [] ++ [MEvent.leave 2500])).memory.revealProgress = 0.15 ∧
    (mRun intSqrt (c5Events 0 [] ++ [MEvent.leave 2500])).memory.layers.map
        MemoryLayer.emotionalSignature ≠ [EmotionalSignature.thorough] := by
  have hrw : mRun intSqrt (c5Events 0 [] ++ [MEvent.leave 2500]) =
      mOnLeave intSqrt 2500 (c5Setup intSqrt 0 []) := by
    unfold mRun c5Setup mRun
    rw [List.foldl_append]
    rfl
  have hfp : (c5Setup intSqrt 0 []).session.focusPoints = [] := rfl
  have havg : calculateAverageMovement intSqrt
      (c5Setup intSqrt 0 []).session.focusPoints ≤ 30 := by
    rw [hfp]
    norm_num [calculateAverageMovement]
  obtain ⟨p1, p2, p3, p4⟩ := c5Setup_props intSqrt 0 ([] : List (ℚ × ℚ))
  obtain ⟨q1, q2, q3⟩ := mOnLeave_fresh intSqrt 2500 (c5Setup intSqrt 0 []) p2 p1
    (by rw [p3]; norm_num) p4 havg
  rw [hrw]
  refine ⟨q2, q1, ?_, ?_⟩
  · rw [q3]; norm_num [getDefaultMemory]
  · rw [q2]; simp

/-- C5 amended: a fresh accumulator with one session opened by onEnter,
closed by onLeave after 2500ms, with maximum scroll depth 0.6 and average
inter-point movement at most 30, appends a layer with interactionType
study and emotionalSignature curious, and raises revealProgress by exactly
0.15. -/
theorem c5_study_session (jsSqrt : ℚ → ℚ) (t0 : ℚ) (moves : List (ℚ × ℚ))
    (havg : calculateAverageMovement jsSqrt
      (c5Setup jsSqrt t0 moves).session.focusPoints ≤ 30) :
    (mStep jsSqrt (MEvent.leave (t0 + 2500)) (c5Setup jsSqrt t0 moves)).memory.layers.map
        MemoryLayer.interactionType = [InteractionType.study] ∧
    (mStep jsSqrt (MEvent.leave (t0 + 2500)) (c5Setup jsSqrt t0 moves)).memory.layers.map
        MemoryLayer.emotionalSignature = [EmotionalSignature.curious] ∧
    (mStep jsSqrt (MEvent.leave (t0 + 2500)) (c5Setup jsSqrt t0 moves)).memory.revealProgress =
      getDefaultMemory.revealProgress + 0.15 := by
  obtain ⟨p1, p2, p3, p4⟩ := c5Setup_props jsSqrt t0 moves
  exact mOnLeave_fresh jsSqrt (t0 + 2500) (c5Setup jsSqrt t0 moves) p2 p1
    (by rw [p3]; ring) p4 havg

/-- Witness for the C5 amended theorem: the concrete scenario with no
pointer moves and the exact integer square root. -/
theorem c5_study_session_witness :
    (calculateAverageMovement intSqrt
      (c5Setup intSqrt 0 []).session.focusPoints ≤ 30) ∧
    ((mStep intSqrt (MEvent.leave (0 + 2500)) (c5Setup intSqrt 0 [])).memory.layers.map
        MemoryLayer.interactionType = [InteractionType.study] ∧
     (mStep intSqrt (MEvent.leave (0 + 2500)) (c5Setup intSqrt 0 [])).memory.layers.map
        MemoryLayer.emotionalSignature = [EmotionalSignature.curious] ∧
     (mStep intSqrt (MEvent.leave (0 + 2500)) (c5Setup intSqrt 0 [])).memory.revealProgress =
        getDefaultMemory.revealProgress + 0.15) := by
  have havg : calculateAverageMovement intSqrt
      (c5Setup intSqrt 0 []).session.focusPoints ≤ 30 := by
    norm_num [show (c5Setup intSqrt 0 []).session.focusPoints = [] from rfl,
      calculateAverageMovement]
  exact ⟨havg, c5_study_session intSqrt 0 [] havg⟩

/-- C6: evaluation of the state initializer at a malformed stored value.
The initializer applies `JSON.parse` to any non-empty stored string with
no guard, so a parse failure propagates to the caller instead of falling
back to the defaults, for both persisting classifiers. -/
theorem c6_malformed_state_propagates :
    loadBehaviorMetrics (some "not-json")
        (fun _ => Except.error "SyntaxError") = Except.error "SyntaxError" ∧
    loadBehaviorMetrics (some "not-json")
        (fun _ => Except.error "SyntaxError") ≠ Except.ok getDefaultMetrics ∧
    loadInteractionMemory (some "not-json")
        (fun _ => Except.error "SyntaxError") = Except.error "SyntaxError" ∧
    loadInteractionMemory (some "not-json")
        (fun _ => Except.error "SyntaxError") ≠ Except.ok getDefaultMemory := by
  refine ⟨?_, ?_, ?_, ?_⟩ <;> simp [loadBehaviorMetrics, loadInteractionMemory]

/-- C7 counterexample: the intent-detection hook contains no storage
access: a scroll event mutates the accumulated signals but writes nothing
to the store, so intent state cannot survive a reload. -/
theorem c7_counterexample :
    (iStepPersist (IEvent.scroll 100 40 1000) (initialIntentState 0, ([] : Store))).2 = [] ∧
    (iStepPersist (IEvent.scroll 100 40 1000)
        (initialIntentState 0, ([] : Store))).1.signals.scrollPatterns ≠ [] ∧
    (initialIntentState 0).signals.scrollPatterns = [] := by
  refine ⟨rfl, ?_, rfl⟩
  simp [iStepPersist, iStep, iOnScroll, sliceLast]

/-- C7 amended: the behavior and memory classifiers write their full
serialized accumulator under the fixed prefix plus caller-supplied id
after every event, while the intent classifier never touches the store. -/
theorem c7_persistence :
    (∀ (componentId : String) (jsSqrt : ℚ → ℚ) (e : BEvent) (s : BehaviorState) (st : Store),
      storeGet (bStepPersist componentId jsSqrt e (s, st)).2 (behaviorStorageKey componentId) =
        some (StoredValue.behaviorVal (bStep jsSqrt e s).metrics)) ∧
    (∀ (cardId : String) (jsSqrt : ℚ → ℚ) (e : MEvent) (s : MemoryState) (st : Store),
      storeGet (mStepPersist cardId jsSqrt e (s, st)).2 (memoryStorageKey cardId) =
        some (StoredValue.memoryVal (mStep jsSqrt e s).memory)) ∧
    (∀ (e : IEvent) (p : IntentState × Store), (iStepPersist e p).2 = p.2) := by
  refine ⟨fun cid jsSqrt e s st => ?_, fun cid jsSqrt e s st => ?_, fun e p => rfl⟩ <;>
    simp [bStepPersist, mStepPersist, storeGet, storeSet]

/-- Concrete trace for claim C8: two clicks 10200ms apart, where the
second click follows a hover start by only 300ms. -/
def c8Trace : List BEvent :=
  [BEvent.hoverStart 0 (0, 0), BEvent.click 100,
   BEvent.hoverStart 10000 (0, 0), BEvent.click 10300]

/-- C8 counterexample: the double-click counter is incremented on a
click that follows a hover start within 400ms even though the two clicks
in the trace are 10200ms apart, because the test reads
`lastInteractionTime`, which `onHoverStart` also updates. -/
theorem c8_counterexample :
    (bRun intSqrt c8Trace).metrics.doubleClickCount = 1 ∧
    clickTimesOf c8Trace = [100, 10300] ∧
    ¬((10300 : ℚ) - 100 < 400) := by
  refine ⟨?_, rfl, by norm_num⟩
  norm_num [bRun, c8Trace, bStep, onHoverStart, onClick, sliceLast,
    initialBehaviorState, getDefaultMetrics, initialBehaviorSession]

/-- C8 amended: onClick increments the click counter, appends the
elapsed time since hover start to the click-speed history, decrements the
hover-without-click counter floored at zero, and increments the
double-click counter exactly when a previous click exists in the history
and fewer than 400ms elapsed since the last interaction, where hover
starts also count as interactions. -/
theorem c8_onClick_step (jsSqrt : ℚ → ℚ) (now : ℚ) (s : BehaviorState) :
    (bStep jsSqrt (BEvent.click now) s).metrics.clickCount = s.metrics.clickCount + 1 ∧
    (bStep jsSqrt (BEvent.click now) s).metrics.clickSpeed =
      sliceLast 10 s.metrics.clickSpeed ++ [now - s.session.hoverStartTime] ∧
    (bStep jsSqrt (BEvent.click now) s).metrics.doubleClickCount =
      (if s.metrics.clickSpeed ≠ [] ∧ now - s.metrics.lastInteractionTime < 400
       then s.metrics.doubleClickCount + 1 else s.metrics.doubleClickCount) ∧
    (bStep jsSqrt (BEvent.click now) s).metrics.hoverWithoutClick =
      s.metrics.hoverWithoutClick - 1 ∧
    (bStep jsSqrt (BEvent.click now) s).metrics.lastInteractionTime = now := by
  refine ⟨rfl, rfl, ?_, rfl, rfl⟩
  simp only [bStep, onClick, gt_iff_lt, List.length_pos]

/-- Concrete trace for claim C9: five scroll events, 100ms apart, each
moving 40px except the first (400px over the first 1000ms), so every
computed velocity is 400 px/s. -/
def c9Trace : List IEvent :=
  [IEvent.scroll 1000 400 1000, IEvent.scroll 1100 440 1000,
   IEvent.scroll 1200 480 1000, IEvent.scroll 1300 520 1000,
   IEvent.scroll 1400 560 1000]

/-- C9: five scroll events each with computed velocity 400 px/s, zero
pauses and zero direction changes make the derived profile searching with
urgency 0.8, attention 0.4 and confidence min(0.9, recent average
velocity / 500). -/
theorem c9_searching_scenario :
    (iRun 0 c9Trace).signals.pauseCount = 0 ∧
    (iRun 0 c9Trace).signals.directionChanges = 0 ∧
    recentVelocityOf (iRun 0 c9Trace).signals = 400 ∧
    calculateIntent (iRun 0 c9Trace).signals 1400 =
      { currentIntent := Intent.searching
        confidence := min 0.9 (recentVelocityOf (iRun 0 c9Trace).signals / 500)
        attention := 0.4
        urgency := 0.8
        suggestedLayout := LayoutKind.compact } := by
  norm_num +decide [iRun, c9Trace, iStep, iOnScroll, initialIntentState,
    initialIntentSignals, sliceLast, recentVelocityOf, calculateIntent, intentScores,
    avgFocusDuration, suggestedLayoutFor, abs]

/-- C10: with an empty click-speed history the average click latency
defaults to 1000ms, making clickSpeedConfidence 0.5, and a fresh
accumulator (zero clicks, hovers and direct approaches) yields confidence
exactly 0.3. -/
theorem c10_default_click_latency (m : BehaviorMetrics)
    (hcs : m.clickSpeed = []) (hclick : m.clickCount = 0) (hhover : m.hoverCount = 0)
    (hda : m.directApproaches = 0) :
    avgClickSpeed m = 1000 ∧
    clickSpeedConfidence m = 0.5 ∧
    (calculateProfile m).confidence = 0.3 := by
  have h1 : avgClickSpeed m = 1000 := by simp [avgClickSpeed, hcs]
  have h2 : clickSpeedConfidence m = 0.5 := by
    rw [clickSpeedConfidence, h1]
    norm_num
  have h3 : directApproachFrac m = 0 := by simp [directApproachFrac, hhover]
  refine ⟨h1, h2, ?_⟩
  simp only [calculateProfile, h2, h3]
  norm_num

/-- Witness for C10 at the default metrics. -/
theorem c10_default_click_latency_witness :
    (getDefaultMetrics.clickSpeed = [] ∧ getDefaultMetrics.clickCount = 0 ∧
     getDefaultMetrics.hoverCount = 0 ∧ getDefaultMetrics.directApproaches = 0) ∧
    (avgClickSpeed getDefaultMetrics = 1000 ∧
     clickSpeedConfidence getDefaultMetrics = 0.5 ∧
     (calculateProfile getDefaultMetrics).confidence = 0.3) :=
  ⟨⟨rfl, rfl, rfl, rfl⟩, c10_default_click_latency getDefaultMetrics rfl rfl rfl rfl⟩
